import Mathlib

/-!
Formal model of `src/rag_system.py` (Inertia-Local-RAG).

The `RAGSystem` class is embedded shallowly.  External collaborators (the
Ollama embedding provider, the Chroma vector store's embedding calls, the chat
model, and the text loader) are passed in as explicit oracle values.  A Python
exception is modelled with `Except`: each public method returns `Except.ok` of
its Python return value, with `Except.error` reserved for an exception
escaping the method — which the `try/except` blocks of the source prevent.
Text is modelled as `List Char`; message strings are reproduced verbatim.
-/

namespace RagSystem

/-- The configured storage location, `PERSIST_DIRECTORY = "./chroma_db_qwen"`
(rag_system.py line 18). -/
def PERSIST_DIRECTORY : String := "./chroma_db_qwen"

/-- A langchain `Document`: page content plus a metadata map.  The content is
modelled as `List Char`. -/
structure Document where
  page_content : List Char
  metadata : List (String × String)
deriving Repr, DecidableEq

/-- A record persisted in the Chroma store: the chunk text, its metadata and
its embedding vector. -/
structure StoreRecord where
  text : List Char
  metadata : List (String × String)
  embedding : List Int
deriving Repr, DecidableEq

/-- The Chroma vector store: its persist directory and its records in
insertion order. -/
structure Store where
  persist_directory : String
  records : List StoreRecord
deriving Repr, DecidableEq

/-- The mutable fields of `RAGSystem`: `self.vectordb` (`None` or a store) and
whether `self.llm` is set (it is `None` exactly when `__init__` failed). -/
structure RAGState where
  vectordb : Option Store
  llm : Bool
deriving Repr, DecidableEq

/-- The embedding provider: maps text to a vector, and may fail
(connectivity). -/
abbrev Emb := List Char → Except String (List Int)

/-- The chat-model step of the `RetrievalQA` chain: from the query text and
the retrieved records to the generated answer; may fail (connectivity). -/
abbrev LLMGen := List Char → List StoreRecord → Except String String

/-- Modelled from the spec: `ChunkingEngine.split` (spec 4.1).  The source
delegates chunking to langchain's
`RecursiveCharacterTextSplitter(chunk_size=800, chunk_overlap=100)`
(rag_system.py line 52), which is external library code, not part of this
repository.  Per spec 4.1 the text is split into pieces of at most `maxSize`
units, stitched so that up to `overlap` units from the tail of a chunk are
carried into the head of the next; a document of at most `maxSize` units
yields exactly one chunk and an empty document yields zero chunks.  The model
works at the raw-character granularity, the last resort of the separator
hierarchy.  `fuel` bounds the recursion and is instantiated with the text
length by `splitChars`. -/
def splitCharsAux (maxSize overlap : Nat) : Nat → List Char → List (List Char)
  | _, [] => []
  | 0, c :: cs => [c :: cs]
  | fuel + 1, c :: cs =>
      if (c :: cs).length ≤ maxSize ∨ maxSize ≤ overlap then [c :: cs]
      else (c :: cs).take maxSize ::
        splitCharsAux maxSize overlap fuel ((c :: cs).drop (maxSize - overlap))

/-- Modelled from the spec: see `splitCharsAux`. -/
def splitChars (maxSize overlap : Nat) (cs : List Char) : List (List Char) :=
  splitCharsAux maxSize overlap cs.length cs

/-- Chunk every document, keeping its metadata on every chunk
(`text_splitter.split_documents`, rag_system.py line 53). -/
def split_documents (maxSize overlap : Nat) (docs : List Document) : List Document :=
  (docs.map (fun d => (splitChars maxSize overlap d.page_content).map
      (fun c => Document.mk c d.metadata))).flatten

/-- The tail of a chunk list concatenated with the carried-over window of
`overlap` characters removed from the head of each chunk. -/
def joinTail (overlap : Nat) : List (List Char) → List Char
  | [] => []
  | c :: rest => c.drop overlap ++ joinTail overlap rest

/-- Concatenate chunks, dropping the first `overlap` characters of every chunk
after the first (the window carried over from the previous chunk). -/
def joinWithoutOverlap (overlap : Nat) : List (List Char) → List Char
  | [] => []
  | c :: rest => c ++ joinTail overlap rest

/-- Embed each document and build store records in order; fails if any
embedding call fails (langchain embeds the whole batch before writing). -/
def embedDocs (embed : Emb) : List Document → Except String (List StoreRecord)
  | [] => .ok []
  | d :: ds => do
      let v ← embed d.page_content
      let rest ← embedDocs embed ds
      .ok (StoreRecord.mk d.page_content d.metadata v :: rest)

/-- `Chroma.from_documents(documents, embedding, persist_directory)`
(rag_system.py lines 56-60): embed the chunks and create the persisted store
at the given directory. -/
def fromDocuments (embed : Emb) (docs : List Document) (dir : String) : Except String Store :=
  (embedDocs embed docs).map (fun recs => Store.mk dir recs)

/-- `self.vectordb.add_documents(docs)`: embed the batch, then append the
records to the store. -/
def addDocuments (embed : Emb) (db : Store) (docs : List Document) : Except String Store :=
  (embedDocs embed docs).map (fun recs => { db with records := db.records ++ recs })

/-- Inner-product similarity score between two vectors. -/
def dot (v w : List Int) : Int := ((v.zip w).map (fun p => p.1 * p.2)).sum

/-- Insert a record into a list already ranked by descending score: it goes
after every strictly higher-scored record and before equal-scored records
inserted later, so the earlier record wins ties. -/
def insertRanked (score : StoreRecord → Int) (r : StoreRecord) :
    List StoreRecord → List StoreRecord
  | [] => [r]
  | x :: xs => if score r < score x then x :: insertRanked score r xs else r :: x :: xs

/-- Rank all records by descending similarity, ties broken by insertion
order. -/
def rankRecords (score : StoreRecord → Int) : List StoreRecord → List StoreRecord
  | [] => []
  | r :: rs => insertRanked score r (rankRecords score rs)

/-- The retriever built by `as_retriever(search_kwargs={"k": 3})` followed by
the similarity search: the top-`k` records by similarity to the query
embedding. -/
def retrieveTopK (db : Store) (qv : List Int) (k : Nat) : List StoreRecord :=
  (rankRecords (fun r => dot qv r.embedding) db.records).take k

/-- The constructor's three external calls (`OllamaEmbeddings`, `Chroma` on an
existing directory, `ChatOllama`), each of which may raise. -/
structure Oracles where
  embedInit : Except String Unit
  openStore : Except String Store
  llmInit : Except String Unit

/-- `RAGSystem.__init__` (rag_system.py lines 24-45): build the embeddings,
open the store if the persist directory exists on disk (else leave `vectordb`
as `None`), build the chat model; on any exception the handler sets both
`vectordb` and `llm` to `None`. -/
def RAGSystem.init (o : Oracles) (dirExists : Bool) : RAGState :=
  match o.embedInit with
  | .error _ => ⟨none, false⟩
  | .ok _ =>
    match (if dirExists then (o.openStore).map some else .ok none) with
    | .error _ => ⟨none, false⟩
    | .ok vdb =>
      match o.llmInit with
      | .error _ => ⟨none, false⟩
      | .ok _ => ⟨vdb, true⟩

/-- The success message of `ingest_documents` (rag_system.py line 64). -/
def successMsg (n : Nat) : String :=
  "Successfully processed " ++ toString n ++ " chunks using Ollama embeddings."

/-- The `try` block of `ingest_documents` (rag_system.py lines 48-64): load
the file, chunk with `chunk_size=800, chunk_overlap=100`, then either create
the store at `PERSIST_DIRECTORY` (when `vectordb` is `None`) or add the chunks
to the existing store. -/
def ingestBody (loader : Except String (List Document)) (embed : Emb) (st : RAGState) :
    Except String (String × RAGState) := do
  let documents ← loader
  let chunks := split_documents 800 100 documents
  match st.vectordb with
  | none => do
      let db ← fromDocuments embed chunks PERSIST_DIRECTORY
      .ok (successMsg chunks.length, { st with vectordb := some db })
  | some db => do
      let db2 ← addDocuments embed db chunks
      .ok (successMsg chunks.length, { st with vectordb := some db2 })

/-- `ingest_documents` (rag_system.py lines 47-66): the `except` clause turns
any exception into the string "Error during ingestion: ..." and leaves the
state unchanged. -/
def ingest_documents (loader : Except String (List Document)) (embed : Emb) (st : RAGState) :
    Except String (String × RAGState) :=
  match ingestBody loader embed st with
  | .ok r => .ok r
  | .error e => .ok ("Error during ingestion: " ++ e, st)

/-- Which external providers a `query_system` call reached. -/
structure QueryTrace where
  embedCalled : Bool
  llmCalled : Bool
deriving Repr, DecidableEq

/-- The `try` block of `query_system` (rag_system.py lines 72-83): embed the
query, retrieve the top 3 records, call the chat model on the stuffed prompt.
An exception carries the trace of the provider calls made before it was
raised. -/
def queryBody (embed : Emb) (llmGen : LLMGen) (db : Store) (q : List Char) :
    Except (String × QueryTrace) (String × List StoreRecord × QueryTrace) :=
  match embed q with
  | .error e => .error (e, ⟨true, false⟩)
  | .ok qv =>
    let sources := retrieveTopK db qv 3
    match llmGen q sources with
    | .error e => .error (e, ⟨true, true⟩)
    | .ok answer => .ok (answer, sources, ⟨true, true⟩)

/-- `query_system` (rag_system.py lines 68-85): the guard on lines 69-70
returns the not-initialized message when `self.vectordb` or `self.llm` is
`None` (a Chroma handle is truthy even over an empty collection); the `except`
clause turns an exception into "Error during query: ..." with an empty source
list. -/
def query_system (embed : Emb) (llmGen : LLMGen) (st : RAGState) (q : List Char) :
    Except String (String × List StoreRecord × QueryTrace) :=
  match st.vectordb, st.llm with
  | some db, true =>
      (match queryBody embed llmGen db q with
       | .ok r => .ok r
       | .error (e, tr) => .ok ("Error during query: " ++ e, [], tr))
  | _, _ => .ok ("System is not properly initialized. Check Ollama status.", [], ⟨false, false⟩)

/-- The text synthesized by `self_learn` (rag_system.py line 89). -/
def synthText (q a : String) : String :=
  "Question: " ++ q ++ "\nVerified Answer: " ++ a

/-- The `try` block of `self_learn` (rag_system.py lines 88-92): build the
feedback document and call `self.vectordb.add_documents([doc])`; when
`vectordb` is `None` that attribute access raises an `AttributeError`. -/
def learnBody (embed : Emb) (st : RAGState) (q a : String) :
    Except String (String × RAGState) :=
  let doc : Document := ⟨(synthText q a).toList, [("source", "user_feedback")]⟩
  match st.vectordb with
  | none => .error "NoneType object has no attribute add_documents"
  | some db => do
      let db2 ← addDocuments embed db [doc]
      .ok ("System updated! I will remember this answer for next time.",
           { st with vectordb := some db2 })

/-- `self_learn` (rag_system.py lines 87-94): the `except` clause turns any
exception into "Error during self-learning: ..." and leaves the state
unchanged. -/
def self_learn (embed : Emb) (st : RAGState) (q a : String) :
    Except String (String × RAGState) :=
  match learnBody embed st q a with
  | .ok r => .ok r
  | .error e => .ok ("Error during self-learning: " ++ e, st)

/-- The "Generate Insight" click handler of the UI (rag_system.py lines
175-178): `query_system` is called only under `if user_query:`, that is, only
when the query string is nonempty. -/
def generateInsight (embed : Emb) (llmGen : LLMGen) (st : RAGState) (user_query : String) :
    Option (Except String (String × List StoreRecord × QueryTrace)) :=
  if user_query = "" then none
  else some (query_system embed llmGen st user_query.toList)

/-- The records held by the state's store (none when the store does not
exist). -/
def storeRecords (st : RAGState) : List StoreRecord :=
  match st.vectordb with
  | none => []
  | some db => db.records

/-- An embedding oracle that always succeeds. -/
def okEmbed : Emb := fun _ => .ok []

/-- An embedding oracle that always fails (provider unreachable). -/
def failEmbed : Emb := fun _ => .error "connection refused"

/-- A chat-model oracle that always succeeds. -/
def okLLM : LLMGen := fun _ _ => .ok "generated answer"

/-- A persisted store directory holding zero records. -/
def emptyStore : Store := ⟨PERSIST_DIRECTORY, []⟩

/-- One previously ingested record. -/
def sampleRecord : StoreRecord := ⟨['d'], [], []⟩

/-- A store holding one record. -/
def oneRecStore : Store := ⟨PERSIST_DIRECTORY, [sampleRecord]⟩

/-- The state reached by starting the system against an existing-but-empty
persist directory. -/
def emptyStoreState : RAGState := RAGSystem.init ⟨.ok (), .ok emptyStore, .ok ()⟩ true

/-- A fully initialized state over a one-record store. -/
def readyState : RAGState := ⟨some oneRecStore, true⟩

/-- The state after startup with no persist directory on disk. -/
def freshState : RAGState := ⟨none, true⟩

/-- A 900-character answer, longer than the 800-character chunk bound. -/
def bigAnswer : String := ⟨List.replicate 900 'x'⟩

/-- A one-character document. -/
def tinyDoc : Document := ⟨['a'], []⟩

/-- Constructor oracles whose store-opening call would fail if it were made. -/
def cexOracles : Oracles := ⟨.ok (), .error "directory will not be opened", .ok ()⟩

/-- A chat model that fails with a connectivity error. -/
def downLLM : LLMGen := fun _ _ => .error "connection refused"

/-- A chat model that succeeds, but whose generated answer happens to read
like the boundary's error message. -/
def mimicLLM : LLMGen := fun _ _ => .ok ("Error during query: " ++ "connection refused")

/-- Every chunk produced by the splitter is at most `maxSize` characters long,
provided the configuration is valid (`overlap < maxSize`) and the fuel covers
the text. -/
theorem splitCharsAux_length_le (maxSize overlap : Nat) (h : overlap < maxSize) :
    ∀ fuel cs, cs.length ≤ fuel →
      ∀ c ∈ splitCharsAux maxSize overlap fuel cs, c.length ≤ maxSize := by
  intro fuel
  induction fuel with
  | zero =>
      intro cs hf c hc
      have hnil : cs = [] := List.length_eq_zero.mp (Nat.le_zero.mp hf)
      subst hnil
      simp [splitCharsAux] at hc
  | succ n ih =>
      intro cs hf c hc
      cases cs with
      | nil => simp [splitCharsAux] at hc
      | cons x xs =>
          by_cases hcond : (x :: xs).length ≤ maxSize ∨ maxSize ≤ overlap
          · simp only [splitCharsAux, if_pos hcond, List.mem_singleton] at hc
            subst hc
            rcases hcond with hlen | hov
            · exact hlen
            · omega
          · simp only [splitCharsAux, if_neg hcond, List.mem_cons] at hc
            push_neg at hcond
            obtain ⟨hlen, hov⟩ := hcond
            rcases hc with hc | hc
            · subst hc
              rw [List.length_take]
              exact min_le_left _ _
            · refine ih _ ?_ c hc
              rw [List.length_drop]
              omega

/-- The head chunk of a nonempty text is the whole text when it fits, and the
first `maxSize` characters otherwise. -/
theorem splitCharsAux_head (maxSize overlap : Nat) :
    ∀ fuel cs, cs ≠ [] → cs.length ≤ fuel →
      ∃ rest, splitCharsAux maxSize overlap fuel cs =
        (if cs.length ≤ maxSize ∨ maxSize ≤ overlap then cs else cs.take maxSize) :: rest := by
  intro fuel cs hne hf
  cases fuel with
  | zero => exact absurd (List.length_eq_zero.mp (Nat.le_zero.mp hf)) hne
  | succ n =>
      cases cs with
      | nil => exact absurd rfl hne
      | cons x xs =>
          by_cases hcond : (x :: xs).length ≤ maxSize ∨ maxSize ≤ overlap
          · exact ⟨[], by simp only [splitCharsAux, if_pos hcond]⟩
          · exact ⟨splitCharsAux maxSize overlap n ((x :: xs).drop (maxSize - overlap)),
              by simp only [splitCharsAux, if_neg hcond]⟩

/-- Consecutive chunks overlap by at most `overlap` characters: the first
`overlap` characters of each later chunk form a suffix of the chunk before
it. -/
theorem splitCharsAux_chain (maxSize overlap : Nat) (h : overlap < maxSize) :
    ∀ fuel cs, cs.length ≤ fuel →
      List.Chain' (fun c c' => (c'.take overlap).length ≤ overlap ∧ c'.take overlap <:+ c)
        (splitCharsAux maxSize overlap fuel cs) := by
  intro fuel
  induction fuel with
  | zero =>
      intro cs hf
      have hnil : cs = [] := List.length_eq_zero.mp (Nat.le_zero.mp hf)
      subst hnil
      simp [splitCharsAux]
  | succ n ih =>
      intro cs hf
      cases cs with
      | nil => simp [splitCharsAux]
      | cons x xs =>
          by_cases hcond : (x :: xs).length ≤ maxSize ∨ maxSize ≤ overlap
          · simp only [splitCharsAux, if_pos hcond]
            exact List.chain'_singleton _
          · simp only [splitCharsAux, if_neg hcond]
            push_neg at hcond
            obtain ⟨hlen, hov⟩ := hcond
            have hrlen : ((x :: xs).drop (maxSize - overlap)).length ≤ n := by
              rw [List.length_drop]
              omega
            have hrpos : 0 < ((x :: xs).drop (maxSize - overlap)).length := by
              rw [List.length_drop]
              omega
            have hrne := List.ne_nil_of_length_pos hrpos
            obtain ⟨rest, hrest⟩ := splitCharsAux_head maxSize overlap n _ hrne hrlen
            rw [hrest]
            refine List.chain'_cons.mpr ⟨⟨?_, ?_⟩, ?_⟩
            · rw [List.length_take]
              exact min_le_left _ _
            · have hhead :
                  (if ((x :: xs).drop (maxSize - overlap)).length ≤ maxSize ∨ maxSize ≤ overlap
                   then (x :: xs).drop (maxSize - overlap)
                   else ((x :: xs).drop (maxSize - overlap)).take maxSize).take overlap
                  = ((x :: xs).drop (maxSize - overlap)).take overlap := by
                split
                · rfl
                · rw [List.take_take]
                  congr 1
                  omega
              rw [hhead]
              have hdt : ((x :: xs).take maxSize).drop (maxSize - overlap)
                  = ((x :: xs).drop (maxSize - overlap)).take overlap := by
                rw [List.drop_take]
                congr 1
                omega
              rw [← hdt]
              exact List.drop_suffix _ _
            · rw [← hrest]
              exact ih _ hrlen

/-- Concatenating the chunks after removing the carried-over window from each
later chunk reconstructs the original text. -/
theorem splitCharsAux_join (maxSize overlap : Nat) (h : overlap < maxSize) :
    ∀ fuel cs, cs.length ≤ fuel →
      joinWithoutOverlap overlap (splitCharsAux maxSize overlap fuel cs) = cs := by
  intro fuel
  induction fuel with
  | zero =>
      intro cs hf
      have hnil : cs = [] := List.length_eq_zero.mp (Nat.le_zero.mp hf)
      subst hnil
      simp [splitCharsAux, joinWithoutOverlap]
  | succ n ih =>
      intro cs hf
      cases cs with
      | nil => simp [splitCharsAux, joinWithoutOverlap]
      | cons x xs =>
          by_cases hcond : (x :: xs).length ≤ maxSize ∨ maxSize ≤ overlap
          · simp only [splitCharsAux, if_pos hcond, joinWithoutOverlap, joinTail,
              List.append_nil]
          · simp only [splitCharsAux, if_neg hcond]
            push_neg at hcond
            obtain ⟨hlen, hov⟩ := hcond
            have hrlen : ((x :: xs).drop (maxSize - overlap)).length ≤ n := by
              rw [List.length_drop]
              omega
            have hrpos : 0 < ((x :: xs).drop (maxSize - overlap)).length := by
              rw [List.length_drop]
              omega
            have hrne := List.ne_nil_of_length_pos hrpos
            obtain ⟨rest, hrest⟩ := splitCharsAux_head maxSize overlap n _ hrne hrlen
            set hc : List Char :=
              (if ((x :: xs).drop (maxSize - overlap)).length ≤ maxSize ∨ maxSize ≤ overlap
               then (x :: xs).drop (maxSize - overlap)
               else ((x :: xs).drop (maxSize - overlap)).take maxSize) with hchc
            have hheadlen : overlap ≤ hc.length := by
              rw [hchc]
              split
              · rw [List.length_drop]
                omega
              · rw [List.length_take, List.length_drop]
                have := Nat.le_min.mpr
                  (⟨Nat.le_of_lt hov, by omega⟩ :
                    overlap ≤ maxSize ∧
                    overlap ≤ (x :: xs).length - (maxSize - overlap))
                exact this
            have hjoin := ih _ hrlen
            rw [hrest] at hjoin
            simp only [joinWithoutOverlap] at hjoin
            have htail : hc.drop overlap ++ joinTail overlap rest
                = ((x :: xs).drop (maxSize - overlap)).drop overlap := by
              rw [← hjoin, List.drop_append_eq_append_drop, Nat.sub_eq_zero_of_le hheadlen,
                List.drop_zero]
            rw [hrest]
            simp only [joinWithoutOverlap, joinTail]
            rw [htail, List.drop_drop]
            have harith : maxSize - overlap + overlap = maxSize := by omega
            rw [harith]
            exact List.take_append_drop maxSize (x :: xs)

/-- Restatement of `splitCharsAux_length_le` for `splitChars`. -/
theorem splitChars_length_le (maxSize overlap : Nat) (h : overlap < maxSize) (cs : List Char) :
    ∀ c ∈ splitChars maxSize overlap cs, c.length ≤ maxSize :=
  splitCharsAux_length_le maxSize overlap h cs.length cs (le_refl _)

/-- Restatement of `splitCharsAux_chain` for `splitChars`. -/
theorem splitChars_chain (maxSize overlap : Nat) (h : overlap < maxSize) (cs : List Char) :
    List.Chain' (fun c c' => (c'.take overlap).length ≤ overlap ∧ c'.take overlap <:+ c)
      (splitChars maxSize overlap cs) :=
  splitCharsAux_chain maxSize overlap h cs.length cs (le_refl _)

/-- Restatement of `splitCharsAux_join` for `splitChars`. -/
theorem splitChars_join (maxSize overlap : Nat) (h : overlap < maxSize) (cs : List Char) :
    joinWithoutOverlap overlap (splitChars maxSize overlap cs) = cs :=
  splitCharsAux_join maxSize overlap h cs.length cs (le_refl _)

/-- Successful embedding produces one store record per document. -/
theorem embedDocs_length (embed : Emb) :
    ∀ (docs : List Document) (recs : List StoreRecord),
      embedDocs embed docs = .ok recs → recs.length = docs.length := by
  intro docs
  induction docs with
  | nil =>
      intro recs hr
      simp only [embedDocs] at hr
      cases hr
      rfl
  | cons d ds ih =>
      intro recs hr
      simp only [embedDocs, Bind.bind, Except.bind] at hr
      cases hv : embed d.page_content with
      | error e => rw [hv] at hr; cases hr
      | ok v =>
          rw [hv] at hr
          cases hrest : embedDocs embed ds with
          | error e => rw [hrest] at hr; cases hr
          | ok rest =>
              rw [hrest] at hr
              cases hr
              simp [ih rest hrest]

/-- Claim C4 (spec-modelled): for every document text and every valid
`(max_size, overlap_size)` configuration, every chunk produced by the chunking
step has length at most `max_size`, the window shared between consecutive
chunks — the head of each later chunk, a suffix of the chunk before it — has
length at most `overlap_size`, and concatenating the chunks with those shared
windows removed reconstructs the document's content in order. -/
theorem C4_chunk_bounds_and_reconstruction (maxSize overlap : Nat) (cs : List Char)
    (h : overlap < maxSize) :
    (∀ c ∈ splitChars maxSize overlap cs, c.length ≤ maxSize) ∧
    List.Chain' (fun c c' => (c'.take overlap).length ≤ overlap ∧ c'.take overlap <:+ c)
      (splitChars maxSize overlap cs) ∧
    joinWithoutOverlap overlap (splitChars maxSize overlap cs) = cs :=
  ⟨splitChars_length_le maxSize overlap h cs, splitChars_chain maxSize overlap h cs,
    splitChars_join maxSize overlap h cs⟩

/-- Witness for C4 at the source's default configuration (800, 100) on a
1000-character document. -/
theorem C4_chunk_bounds_and_reconstruction_witness :
    100 < 800 ∧
    ((∀ c ∈ splitChars 800 100 (List.replicate 1000 'a'), c.length ≤ 800) ∧
     List.Chain' (fun c c' => (c'.take 100).length ≤ 100 ∧ c'.take 100 <:+ c)
       (splitChars 800 100 (List.replicate 1000 'a')) ∧
     joinWithoutOverlap 100 (splitChars 800 100 (List.replicate 1000 'a')) =
       List.replicate 1000 'a') :=
  ⟨by decide, C4_chunk_bounds_and_reconstruction 800 100 (List.replicate 1000 'a') (by decide)⟩

/-- Claim C1 (counterexample): a store that exists on disk but holds zero
records does not fail fast — `query_system` runs the chain and the language
model is invoked (`llmCalled = true` in the trace), refuting "the store does
not exist or is empty ⟹ no call to the language model". -/
theorem C1_counterexample :
    emptyStoreState = ⟨some ⟨PERSIST_DIRECTORY, []⟩, true⟩ ∧
    query_system okEmbed okLLM emptyStoreState ['h', 'i'] =
      .ok ("generated answer", [], ⟨true, true⟩) :=
  ⟨rfl, rfl⟩

/-- Claim C1 (amended): `query_system` fails fast — returning the
not-initialized message, with no embedding call and no language-model call —
exactly when the `vectordb` handle is `None` (the store directory was absent
at startup and no ingest has happened) or the LLM handle is `None`; an
existing store with zero records is not guarded against. -/
theorem C1_fail_fast_only_when_none (embed : Emb) (llmGen : LLMGen) (st : RAGState)
    (q : List Char) (h : st.vectordb = none ∨ st.llm = false) :
    query_system embed llmGen st q =
      .ok ("System is not properly initialized. Check Ollama status.", [], ⟨false, false⟩) := by
  rcases hdb : st.vectordb with _ | db
  · unfold query_system
    rw [hdb]
  · have hl : st.llm = false := by
      rcases h with h | h
      · rw [hdb] at h
        cases h
      · exact h
    unfold query_system
    rw [hdb, hl]

/-- Witness for C1 (amended) at the fresh state, whose `vectordb` is `None`. -/
theorem C1_fail_fast_only_when_none_witness :
    (freshState.vectordb = none ∨ freshState.llm = false) ∧
    query_system okEmbed okLLM freshState ['h'] =
      .ok ("System is not properly initialized. Check Ollama status.", [], ⟨false, false⟩) :=
  ⟨Or.inl rfl, C1_fail_fast_only_when_none okEmbed okLLM freshState ['h'] (Or.inl rfl)⟩

set_option maxRecDepth 8192 in
/-- Claim C2 (counterexample): a feedback pair whose synthesized text is 928
characters long — above the 800-character chunk bound — is written by
`self_learn` as one single store record, not as multiple chunks: `self_learn`
does not route through the chunking ingestion pipeline. -/
theorem C2_counterexample :
    self_learn okEmbed emptyStoreState "" bigAnswer =
      .ok ("System updated! I will remember this answer for next time.",
           ⟨some ⟨PERSIST_DIRECTORY,
                  [⟨(synthText "" bigAnswer).toList, [("source", "user_feedback")], []⟩]⟩,
            true⟩) ∧
    800 < (synthText "" bigAnswer).toList.length :=
  ⟨rfl, by decide⟩

/-- Claim C2 (amended): `self_learn` synthesizes exactly
"Question: {query}\nVerified Answer: {answer}", attaches metadata with
source = "user_feedback", and appends it to the vector store as one single
document via `add_documents`, with no chunking — regardless of its length. -/
theorem C2_learn_single_record (embed : Emb) (st : RAGState) (db : Store) (q a : String)
    (v : List Int) (hdb : st.vectordb = some db)
    (hv : embed (synthText q a).toList = .ok v) :
    self_learn embed st q a =
      .ok ("System updated! I will remember this answer for next time.",
           { st with vectordb := some { db with records :=
               db.records ++ [⟨(synthText q a).toList, [("source", "user_feedback")], v⟩] } }) := by
  unfold self_learn learnBody
  rw [hdb]
  simp only [addDocuments, embedDocs, Bind.bind, Except.bind, Except.map, hv]

/-- Witness for C2 (amended): a small pair appended to the one-record store. -/
theorem C2_learn_single_record_witness :
    readyState.vectordb = some oneRecStore ∧
    okEmbed (synthText "q" "a").toList = .ok [] ∧
    self_learn okEmbed readyState "q" "a" =
      .ok ("System updated! I will remember this answer for next time.",
           { readyState with vectordb := some { oneRecStore with records :=
               oneRecStore.records ++
                 [⟨(synthText "q" "a").toList, [("source", "user_feedback")], []⟩] } }) :=
  ⟨rfl, rfl, C2_learn_single_record okEmbed readyState oneRecStore "q" "a" [] rfl rfl⟩

/-- Claim C3 (counterexample): a successful ingest returns the human-readable
message string, which is not the decimal representation of the chunk count —
the operation does not return the count as an integer. -/
theorem C3_counterexample :
    ingest_documents (.ok [tinyDoc]) okEmbed freshState =
      .ok (successMsg 1, ⟨some ⟨PERSIST_DIRECTORY, [⟨['a'], [], []⟩]⟩, true⟩) ∧
    successMsg 1 = "Successfully processed 1 chunks using Ollama embeddings." ∧
    successMsg 1 ≠ toString (1 : Nat) :=
  ⟨rfl, rfl, by decide⟩

/-- Claim C3 (amended): on success, `ingest_documents` returns the message
string "Successfully processed {n} chunks using Ollama embeddings." in which
`n` equals the number of records actually appended to the store; the count is
embedded in a message string rather than returned as a bare integer. -/
theorem C3_success_message (docs : List Document) (embed : Emb) (st : RAGState)
    (recs : List StoreRecord)
    (he : embedDocs embed (split_documents 800 100 docs) = .ok recs) :
    ∃ st' : RAGState,
      ingest_documents (.ok docs) embed st = .ok (successMsg recs.length, st') ∧
      storeRecords st' = storeRecords st ++ recs := by
  have hn : recs.length = (split_documents 800 100 docs).length :=
    embedDocs_length embed _ recs he
  unfold ingest_documents ingestBody
  rcases hdb : st.vectordb with _ | db
  · refine ⟨⟨some ⟨PERSIST_DIRECTORY, recs⟩, st.llm⟩, ?_, ?_⟩
    · simp only [Bind.bind, Except.bind, hdb, fromDocuments, Except.map, he, hn]
    · simp only [storeRecords, hdb, List.nil_append]
  · refine ⟨⟨some { db with records := db.records ++ recs }, st.llm⟩, ?_, ?_⟩
    · simp only [Bind.bind, Except.bind, hdb, addDocuments, Except.map, he, hn]
    · simp only [storeRecords, hdb]

/-- Witness for C3 (amended): ingesting a one-character document into the
one-record store. -/
theorem C3_success_message_witness :
    embedDocs okEmbed (split_documents 800 100 [tinyDoc]) =
      .ok [(⟨['a'], [], []⟩ : StoreRecord)] ∧
    ∃ st' : RAGState,
      ingest_documents (.ok [tinyDoc]) okEmbed readyState =
        .ok (successMsg [(⟨['a'], [], []⟩ : StoreRecord)].length, st') ∧
      storeRecords st' = storeRecords readyState ++ [⟨['a'], [], []⟩] :=
  ⟨rfl, C3_success_message [tinyDoc] okEmbed readyState [⟨['a'], [], []⟩] rfl⟩

/-- Claim C5 (counterexample): errors are not returned to the caller as a
typed success/failure result.  The first conjunct pins down what a query
whose language model fails with "connection refused" returns: an ordinary
`.ok` value carrying a plain message string.  The second shows that a query
whose language model call *succeeds* — generating an answer that reads like
that message — returns the byte-identical value, so the caller cannot
distinguish a failed call from a successful one by its result. -/
theorem C5_counterexample :
    query_system okEmbed downLLM emptyStoreState ['h'] =
      .ok ("Error during query: " ++ "connection refused", [], ⟨true, true⟩) ∧
    query_system okEmbed mimicLLM emptyStoreState ['h'] =
      query_system okEmbed downLLM emptyStoreState ['h'] :=
  ⟨rfl, rfl⟩

/-- Claim C5 (amended): every call to ingest, query, or learn catches every
internal exception at the method boundary and returns a plain message value
to the caller through the normal return channel — no oracle behavior makes an
exception escape (`Except.error`) from a public operation, so no error
propagates as an uncaught fault; the success/failure distinction, however, is
carried only in the message text, not in a typed result. -/
theorem C5_no_uncaught_faults (loader : Except String (List Document)) (embed : Emb)
    (llmGen : LLMGen) (st : RAGState) (q : List Char) (fq fa : String) :
    (ingest_documents loader embed st).isOk = true ∧
    (query_system embed llmGen st q).isOk = true ∧
    (self_learn embed st fq fa).isOk = true := by
  refine ⟨?_, ?_, ?_⟩
  · unfold ingest_documents
    cases ingestBody loader embed st <;> rfl
  · obtain ⟨vdb, llmFlag⟩ := st
    cases vdb with
    | none => rfl
    | some db =>
        cases llmFlag
        · rfl
        · rcases hq : queryBody embed llmGen db q with ⟨e, tr⟩ | r <;>
            simp [query_system, hq, Except.isOk, Except.toBool]
  · unfold self_learn
    cases learnBody embed st fq fa <;> rfl

/-- Claim C6 (counterexample): called directly with the empty query string on
a nonempty initialized store, `query_system` reaches both the embedding
provider and the language model (trace `⟨true, true⟩`) — the core operation
itself does not reject empty queries. -/
theorem C6_counterexample :
    query_system okEmbed okLLM readyState [] =
      .ok ("generated answer", [sampleRecord], ⟨true, true⟩) :=
  rfl

/-- Claim C6 (amended): the empty-query rejection lives in the UI layer: the
"Generate Insight" handler calls `query_system` only when the query string is
nonempty, so an empty query issues no call at all — and hence reaches no
provider. -/
theorem C6_empty_query_rejected_by_ui (embed : Emb) (llmGen : LLMGen) (st : RAGState) :
    generateInsight embed llmGen st "" = none :=
  rfl

/-- Claim C7: when the persist directory is absent at startup, `__init__`
completes without error leaving `vectordb = None` (the store-opening oracle is
never consulted), and the first successful ingest both creates the store and
persists it at the configured `PERSIST_DIRECTORY`. -/
theorem C7_lazy_creation (o : Oracles) (embed : Emb) (docs : List Document)
    (recs : List StoreRecord)
    (h1 : o.embedInit = .ok ()) (h2 : o.llmInit = .ok ())
    (he : embedDocs embed (split_documents 800 100 docs) = .ok recs) :
    RAGSystem.init o false = ⟨none, true⟩ ∧
    ingest_documents (.ok docs) embed (RAGSystem.init o false) =
      .ok (successMsg (split_documents 800 100 docs).length,
           ⟨some ⟨PERSIST_DIRECTORY, recs⟩, true⟩) := by
  have hinit : RAGSystem.init o false = ⟨none, true⟩ := by
    unfold RAGSystem.init
    rw [h1, h2]
    rfl
  refine ⟨hinit, ?_⟩
  rw [hinit]
  unfold ingest_documents ingestBody
  simp only [Bind.bind, Except.bind, fromDocuments, Except.map, he]

/-- Witness for C7: oracles whose store-opening call would fail, an absent
directory, and a one-document ingest. -/
theorem C7_lazy_creation_witness :
    cexOracles.embedInit = .ok () ∧ cexOracles.llmInit = .ok () ∧
    embedDocs okEmbed (split_documents 800 100 [tinyDoc]) =
      .ok [(⟨['a'], [], []⟩ : StoreRecord)] ∧
    (RAGSystem.init cexOracles false = ⟨none, true⟩ ∧
     ingest_documents (.ok [tinyDoc]) okEmbed (RAGSystem.init cexOracles false) =
       .ok (successMsg (split_documents 800 100 [tinyDoc]).length,
            ⟨some ⟨PERSIST_DIRECTORY, [⟨['a'], [], []⟩]⟩, true⟩)) :=
  ⟨rfl, rfl, rfl, C7_lazy_creation cexOracles okEmbed [tinyDoc] [⟨['a'], [], []⟩] rfl rfl rfl⟩

/-- Claim C8: an ingest call whose embedding step fails reports the failure
for that call only — the error message — and leaves the state, in particular
every store record already present, unchanged.  (Chunking itself is total in
the model, matching the source, where the splitter performs no I/O.) -/
theorem C8_failed_ingest_frame (docs : List Document) (embed : Emb) (st : RAGState)
    (e : String) (he : embedDocs embed (split_documents 800 100 docs) = .error e) :
    ingest_documents (.ok docs) embed st = .ok ("Error during ingestion: " ++ e, st) := by
  unfold ingest_documents ingestBody
  rcases hdb : st.vectordb with _ | db
  · simp only [Bind.bind, Except.bind, hdb, fromDocuments, Except.map, he]
  · simp only [Bind.bind, Except.bind, hdb, addDocuments, Except.map, he]

/-- Witness for C8: a failing embedding provider against the one-record
store. -/
theorem C8_failed_ingest_frame_witness :
    embedDocs failEmbed (split_documents 800 100 [tinyDoc]) = .error "connection refused" ∧
    ingest_documents (.ok [tinyDoc]) failEmbed readyState =
      .ok ("Error during ingestion: " ++ "connection refused", readyState) :=
  ⟨rfl, C8_failed_ingest_frame [tinyDoc] failEmbed readyState "connection refused" rfl⟩

/-- Claim C9: with a fixed deterministic embedding provider and an unchanged
store, the ranked source list returned by `query_system` is a function of the
store and the query text alone — it does not depend on the language model's
generated text, so two calls with identical query text return identical
ranked source orderings even if the generator's outputs differ. -/
theorem C9_source_ranking_deterministic (embed : Emb)
    (g1 g2 : List Char → List StoreRecord → String) (st : RAGState) (q : List Char) :
    (query_system embed (fun p s => .ok (g1 p s)) st q).map (fun r => r.2.1) =
    (query_system embed (fun p s => .ok (g2 p s)) st q).map (fun r => r.2.1) := by
  obtain ⟨vdb, llmFlag⟩ := st
  cases vdb with
  | none => rfl
  | some db =>
      cases llmFlag
      · rfl
      · unfold query_system queryBody
        cases embed q <;> rfl

/-- Claim C10: a `self_learn` call made while no vector store exists
(`vectordb = None`, i.e. before any successful ingest) returns the
self-learning error message and leaves the state unchanged — unlike
`ingest_documents`, `self_learn` never lazily creates the store. -/
theorem C10_learn_never_creates_store (embed : Emb) (st : RAGState) (q a : String)
    (h : st.vectordb = none) :
    self_learn embed st q a =
      .ok ("Error during self-learning: " ++ "NoneType object has no attribute add_documents",
           st) := by
  unfold self_learn learnBody
  rw [h]

/-- Witness for C10 at the fresh state, whose `vectordb` is `None`. -/
theorem C10_learn_never_creates_store_witness :
    freshState.vectordb = none ∧
    self_learn okEmbed freshState "q" "a" =
      .ok ("Error during self-learning: " ++ "NoneType object has no attribute add_documents",
           freshState) :=
  ⟨rfl, C10_learn_never_creates_store okEmbed freshState "q" "a" rfl⟩

end RagSystem
